import Mathlib

/-!
Shallow embedding of the payment-transaction code of this repository
(`server.py` and `server_tri.py`) and proofs about it.

Modelling conventions:
* Timestamps: the code stores `datetime.utcnow().replace(microsecond=0)` as an
  ISO string and compares parsed datetimes; second-resolution UTC datetimes are
  order-isomorphic to epoch-second counts, so timestamps are modelled as `Nat`
  (seconds).  `now - created > timedelta(minutes=10)` becomes
  `600 < now - created` in truncated `Nat` subtraction, which agrees with the
  Python comparison in every case (a `createdAt` in the future yields a
  negative delta in Python and `0` here; both fail the strict test).
* JSON-absent values (`dict.get` returning `None`, absent request fields) are
  modelled as `none : Option _`; Python truthiness of an optional string is
  `truthy` below (absent and empty string are falsy).
* The file store `history.json` is modelled as the `List Tx` threaded through
  each handler; a handler returns the history content it persists (a skipped
  `write_history` when nothing changed persists the same content).
* The external provider call `payos.create_payment_link` is a parameter of
  type `Except String LinkRes`: `.error e` models the call raising an
  exception with message `e`, `.ok r` models a successful response dict.
-/

/-- Model of the Python pattern `for tx in history: if p(tx): mutate(tx); break`:
rewrite the first element satisfying `p` with `f`, leave the rest alone. -/
def updateFirst {α : Type} (p : α → Bool) (f : α → α) : List α → List α
  | [] => []
  | x :: xs => if p x then f x :: xs else x :: updateFirst p f xs

/-- Index of the first element satisfying `p` (the element the Python
for/break loop would mutate), if any. -/
def firstIdx {α : Type} (p : α → Bool) : List α → Option Nat
  | [] => none
  | x :: xs => if p x then some 0 else (firstIdx p xs).map (· + 1)

/-- Python truthiness of an optional string: `None` and `""` are falsy. -/
def truthy : Option String → Bool
  | none => false
  | some s => s != ""

namespace Server

/-- One entry of `history.json` as written by `server.py`.  `paymentLinkId` is
optional because it comes from `res.get('paymentLinkId')`; `updatedAt` is
absent until the first status transition. -/
structure Tx where
  paymentLinkId : Option String
  orderCode     : String
  amount        : Int
  statusCode    : String
  status        : String
  createdAt     : Nat
  updatedAt     : Option Nat
deriving DecidableEq

/-- The `STATUS_LABELS` dict of `server.py` (no entry for `FAILED`). -/
def STATUS_LABELS : String → Option String
  | "PENDING" => some "Chờ thanh toán"
  | "EXPIRED" => some "Hết hạn"
  | "SUCCESS" => some "Thanh toán thành công"
  | "CANCELED" => some "Đã huỷ"
  | _ => none

/-- Provider response dict fields read by `create_payment`. -/
structure LinkRes where
  checkoutUrl   : Option String
  paymentLinkId : Option String
deriving DecidableEq

/-- Response body of the create endpoint. -/
inductive CreateResp where
  | err (msg : String)
  | ok (checkoutUrl : Option String) (orderCode : String) (paymentLinkId : Option String)
deriving DecidableEq

/-- Locally generated order code: the Python f-string ORDER-(epoch second). -/
def mkOrderCode (t : Nat) : String := "ORDER-" ++ toString t

/-- Model of the `create_payment` handler of `server.py`.
`payosOk` models `if payos:` (whether PayOS client initialization succeeded);
`provider` models what `payos.create_payment_link(pd)` would do; `t` is
`int(time.time())`; `now` is the `datetime.utcnow()` reading used for
`createdAt`.  The `description` field is never persisted, so it is omitted.
Returns the pair (HTTP status code, response body) and the persisted history. -/
def create_payment (payosOk : Bool) (provider : Except String LinkRes)
    (amount : Option Int) (t now : Nat) (h : List Tx) :
    (Nat × CreateResp) × List Tx :=
  match amount with
  | none => ((400, .err "Missing amount"), h)
  | some a =>
    if a = 0 then ((400, .err "Missing amount"), h)
    else
      let orderCode := mkOrderCode t
      let link : Except String (Option String × Option String) :=
        if payosOk then provider.map (fun r => (r.checkoutUrl, r.paymentLinkId))
        else Except.ok (some ("https://example.com/checkout/" ++ orderCode),
                        some ("LINK-" ++ orderCode))
      match link with
      | .error e => ((500, .err e), h)
      | .ok (cu, pl) =>
        let tx : Tx := { paymentLinkId := pl, orderCode := orderCode, amount := a,
                         statusCode := "PENDING", status := "Chờ thanh toán",
                         createdAt := now, updatedAt := none }
        ((200, .ok cu orderCode pl), h ++ [tx])

/-- The webhook loop condition on one record. -/
def webhookMatch (link : String) (tx : Tx) : Bool := tx.paymentLinkId == some link

/-- Model of the `payment_webhook` handler of `server.py`: validates the
payload, then rewrites the first record whose `paymentLinkId` equals the
payload's, unconditionally, to the incoming status string. -/
def payment_webhook (h : List Tx) (linkId? status? : Option String) (now : Nat) :
    Nat × List Tx :=
  if !truthy linkId? || !truthy status? then (400, h)
  else
    let status := status?.getD ""
    (200, updateFirst (webhookMatch (linkId?.getD ""))
      (fun tx => { tx with statusCode := status,
                           status := (STATUS_LABELS status).getD status,
                           updatedAt := some now }) h)

/-- The redirect loop condition on one record: Python compares
`tx.get('orderCode') == request.args.get('orderCode')` (absent arg is `None`,
never equal to a stored string). -/
def redirectMatch (oc? : Option String) (tx : Tx) : Bool := some tx.orderCode == oc?

/-- Model of the `payment_success` redirect handler of `server.py`: sets the
first matching record to SUCCESS unconditionally. -/
def payment_success (h : List Tx) (oc? : Option String) (now : Nat) : List Tx :=
  updateFirst (redirectMatch oc?) (fun tx =>
    { tx with statusCode := "SUCCESS", status := "Thanh toán thành công",
              updatedAt := some now }) h

/-- Model of the `payment_cancel` redirect handler of `server.py`: sets the
first matching record to CANCELED unconditionally. -/
def payment_cancel (h : List Tx) (oc? : Option String) (now : Nat) : List Tx :=
  updateFirst (redirectMatch oc?) (fun tx =>
    { tx with statusCode := "CANCELED", status := "Đã huỷ",
              updatedAt := some now }) h

/-- Per-record expiry step of the lazy sweep in `payment_history`. -/
def sweepTx (now : Nat) (tx : Tx) : Tx :=
  if tx.statusCode == "PENDING" && decide (600 < now - tx.createdAt) then
    { tx with statusCode := "EXPIRED", status := "Hết hạn", updatedAt := some now }
  else tx

/-- Model of the `payment_history` handler of `server.py`: the persisted
history after the lazy expiry sweep (when no record changed the write is
skipped, persisting the same content). -/
def payment_history (h : List Tx) (now : Nat) : List Tx :=
  h.map (sweepTx now)

end Server

namespace ServerTri

/-- One entry of `history.json` as handled by `server_tri.py`.  `statusCode`
and `status` are optional because its webhook copies `data.get('status')`
into them verbatim, which may be Python `None`. -/
structure Tx where
  paymentLinkId : Option String
  orderCode     : Nat
  amount        : Int
  statusCode    : Option String
  status        : Option String
  createdAt     : Nat
  updatedAt     : Option Nat
deriving DecidableEq

/-- The `STATUS_LABELS` dict of `server_tri.py`. -/
def STATUS_LABELS : String → Option String
  | "PENDING" => some "Đang thanh toán"
  | "SUCCESS" => some "Thành công"
  | "CANCELED" => some "Thất bại"
  | "FAILED" => some "Thất bại"
  | "EXPIRED" => some "Thất bại"
  | _ => none

/-- Model of the `payment_webhook` handler of `server_tri.py`: no payload
validation at all; the first record whose `paymentLinkId` equals
`data.get('paymentLinkId')` gets `statusCode` overwritten with
`data.get('status')` verbatim (possibly `None`); always responds 200. -/
def payment_webhook (h : List Tx) (linkId? status? : Option String) (now : Nat) :
    Nat × List Tx :=
  (200, updateFirst (fun tx => tx.paymentLinkId == linkId?)
    (fun tx => { tx with statusCode := status?,
                         status := status?.map (fun c => (STATUS_LABELS c).getD c),
                         updatedAt := some now }) h)

end ServerTri

/-! ### Helper lemmas about the list-update combinators -/

theorem updateFirst_length {α : Type} (p : α → Bool) (f : α → α) (l : List α) :
    (updateFirst p f l).length = l.length := by
  induction l with
  | nil => rfl
  | cons x xs ih => by_cases hx : p x <;> simp [updateFirst, hx, ih]

theorem getElem?_updateFirst {α : Type} (p : α → Bool) (f : α → α) (l : List α) (i : Nat)
    (hfind : firstIdx p l = some i) :
    (updateFirst p f l)[i]? = l[i]?.map f := by
  induction l generalizing i with
  | nil => simp [firstIdx] at hfind
  | cons x xs ih =>
    by_cases hx : p x
    · simp [firstIdx, hx] at hfind
      subst hfind
      simp [updateFirst, hx]
    · simp [firstIdx, hx, Option.map_eq_some'] at hfind
      obtain ⟨j, hj, rfl⟩ := hfind
      simp [updateFirst, hx, ih j hj]

theorem updateFirst_updateFirst {α : Type} (p : α → Bool) (f g : α → α)
    (hpres : ∀ x, p (g x) = p x) (l : List α) :
    updateFirst p f (updateFirst p g l) = updateFirst p (fun x => f (g x)) l := by
  induction l with
  | nil => rfl
  | cons x xs ih =>
    by_cases hx : p x
    · simp [updateFirst, hx, hpres]
    · simp [updateFirst, hx, ih]

theorem map_updateFirst_congr {α β : Type} (e : α → β) (p : α → Bool) (f g : α → α)
    (hfg : ∀ x, e (f x) = e (g x)) (l : List α) :
    (updateFirst p f l).map e = (updateFirst p g l).map e := by
  induction l with
  | nil => rfl
  | cons x xs ih => by_cases hx : p x <;> simp [updateFirst, hx, hfg, ih]

/-! ### Concrete records used by counterexamples and witnesses -/

/-- A transaction already settled as SUCCESS, as `server.py` would have
written it. -/
def txSuccess : Server.Tx :=
  { paymentLinkId := some "L1", orderCode := "ORDER-1", amount := 5000,
    statusCode := "SUCCESS", status := "Thanh toán thành công",
    createdAt := 0, updatedAt := some 5 }

/-- A fresh PENDING transaction, as `server.py` writes it at creation. -/
def txPending : Server.Tx :=
  { paymentLinkId := some "L1", orderCode := "ORDER-1", amount := 5000,
    statusCode := "PENDING", status := "Chờ thanh toán",
    createdAt := 0, updatedAt := none }

/-! ### C1: terminal-state stickiness -/

/-- C1 counterexample: a record already in the terminal state SUCCESS is
rewritten to CANCELED by a later webhook delivery, so terminal states are not
sticky under webhook delivery. -/
theorem C1_counterexample :
    txSuccess.statusCode = "SUCCESS" ∧
    (Server.payment_webhook [txSuccess] (some "L1") (some "CANCELED") 50).2.map
      Server.Tx.statusCode = ["CANCELED"] :=
  ⟨rfl, rfl⟩

/-- C1 amended: only the expiry sweep respects terminal states — a history
read leaves every record whose statusCode is not PENDING exactly unchanged;
the webhook and redirect handlers overwrite a matched record's statusCode
without checking the current state. -/
theorem C1_sweep_preserves_terminal (h : List Server.Tx) (now i : Nat) (tx : Server.Tx)
    (htx : h[i]? = some tx) (hterm : tx.statusCode ≠ "PENDING") :
    (Server.payment_history h now)[i]? = some tx := by
  simp [Server.payment_history, htx, Server.sweepTx, hterm]

/-- C1 amended, witness at a concrete input: a SUCCESS record is untouched by
a history read one hour later. -/
theorem C1_sweep_preserves_terminal_witness :
    [txSuccess][0]? = some txSuccess ∧ txSuccess.statusCode ≠ "PENDING" ∧
    (Server.payment_history [txSuccess] 3600)[0]? = some txSuccess :=
  ⟨rfl, by decide, C1_sweep_preserves_terminal [txSuccess] 3600 0 txSuccess rfl (by decide)⟩

/-! ### C2: expiry threshold on history read -/

/-- C2: on a history read at time `now`, a PENDING record strictly older than
10 minutes (600 s) becomes EXPIRED (with label and updatedAt set), and a
PENDING record aged at most 10 minutes is left exactly as it was, still
PENDING. -/
theorem C2_expiry_threshold (h : List Server.Tx) (now i : Nat) (tx : Server.Tx)
    (htx : h[i]? = some tx) (hpend : tx.statusCode = "PENDING") :
    (Server.payment_history h now)[i]? =
      some (if 600 < now - tx.createdAt
            then { tx with statusCode := "EXPIRED", status := "Hết hạn",
                           updatedAt := some now }
            else tx) := by
  by_cases hc : 600 < now - tx.createdAt <;>
    simp [Server.payment_history, htx, Server.sweepTx, hpend, hc]

/-- C2 witness: an 11-minute-old PENDING record expires on read, and by the
same theorem at 9 minutes a PENDING record stays PENDING. -/
theorem C2_expiry_threshold_witness :
    ([txPending][0]? = some txPending ∧ txPending.statusCode = "PENDING" ∧
      (Server.payment_history [txPending] 660)[0]? =
        some (if 600 < 660 - txPending.createdAt
              then { txPending with statusCode := "EXPIRED", status := "Hết hạn",
                                    updatedAt := some 660 }
              else txPending)) ∧
    (Server.payment_history [txPending] 540)[0]? =
      some (if 600 < 540 - txPending.createdAt
            then { txPending with statusCode := "EXPIRED", status := "Hết hạn",
                                  updatedAt := some 540 }
            else txPending) :=
  ⟨⟨rfl, rfl, C2_expiry_threshold [txPending] 660 0 txPending rfl rfl⟩,
    C2_expiry_threshold [txPending] 540 0 txPending rfl rfl⟩

/-! ### C3: unknown webhook status strings -/

/-- C3 counterexample: a webhook carrying the out-of-vocabulary status
ON_HOLD for a known paymentLinkId sets the record's statusCode to ON_HOLD
itself, not to FAILED as the claim states. -/
theorem C3_counterexample :
    (Server.payment_webhook [txPending] (some "L1") (some "ON_HOLD") 9).2.map
      Server.Tx.statusCode = ["ON_HOLD"] ∧
    ¬ (Server.payment_webhook [txPending] (some "L1") (some "ON_HOLD") 9).2.map
      Server.Tx.statusCode = ["FAILED"] :=
  ⟨rfl, by decide⟩

/-- C3 amended: a webhook with any non-empty status string for a known
paymentLinkId is handled with 200 and copies the incoming string verbatim
into the matched record's statusCode, with the status label falling back to
the same original string when it is not in the label dictionary — the event
is never dropped, but the statusCode does not become FAILED. -/
theorem C3_unknown_status_passthrough (h : List Server.Tx) (link s : String)
    (now i : Nat) (tx : Server.Tx) (hlink : link ≠ "") (hs : s ≠ "")
    (hfind : firstIdx (Server.webhookMatch link) h = some i) (htx : h[i]? = some tx) :
    (Server.payment_webhook h (some link) (some s) now).1 = 200 ∧
    (Server.payment_webhook h (some link) (some s) now).2[i]? =
      some { tx with statusCode := s, status := (Server.STATUS_LABELS s).getD s,
                     updatedAt := some now } := by
  have hl : truthy (some link) = true := by simp [truthy, hlink]
  have hst : truthy (some s) = true := by simp [truthy, hs]
  constructor
  · simp [Server.payment_webhook, hl, hst]
  · simp [Server.payment_webhook, hl, hst, getElem?_updateFirst _ _ h i hfind, htx]

/-- C3 amended, witness: status WEIRD on a concrete one-record history ends
up verbatim in the record. -/
theorem C3_unknown_status_passthrough_witness :
    ("L1" ≠ "" ∧ "WEIRD" ≠ "" ∧
      firstIdx (Server.webhookMatch "L1") [txPending] = some 0 ∧
      [txPending][0]? = some txPending) ∧
    (Server.payment_webhook [txPending] (some "L1") (some "WEIRD") 7).1 = 200 ∧
    (Server.payment_webhook [txPending] (some "L1") (some "WEIRD") 7).2[0]? =
      some { txPending with statusCode := "WEIRD",
                            status := (Server.STATUS_LABELS "WEIRD").getD "WEIRD",
                            updatedAt := some 7 } :=
  ⟨⟨by decide, by decide, by decide, rfl⟩,
    C3_unknown_status_passthrough [txPending] "L1" "WEIRD" 7 0 txPending
      (by decide) (by decide) (by decide) rfl⟩

/-! ### C4: creation atomicity on provider failure -/

/-- C4: when the PayOS client is initialized, the amount is truthy, and the
provider call raises with message `e`, `create_payment` answers 500 with the
error message and persists exactly the unchanged history: no PENDING record
is written. -/
theorem C4_provider_failure_atomic (h : List Server.Tx) (a : Int) (e : String)
    (t now : Nat) (ha : a ≠ 0) :
    Server.create_payment true (.error e) (some a) t now h =
      ((500, .err e), h) := by
  simp [Server.create_payment, ha, Except.map]

/-- C4 witness: a concrete failing provider call leaves a concrete one-record
history untouched and yields the 500 error response. -/
theorem C4_provider_failure_atomic_witness :
    (5000 : Int) ≠ 0 ∧
    Server.create_payment true (.error "payos down") (some 5000) 1000 1000 [txSuccess] =
      ((500, .err "payos down"), [txSuccess]) :=
  ⟨by decide, C4_provider_failure_atomic [txSuccess] 5000 "payos down" 1000 1000 (by decide)⟩

/-! ### C5: amount validation -/

/-- C5 counterexample: amount -1 is not a positive integer, yet the create
handler accepts it with status 200 and persists a record with amount -1
(shown here in stub mode, where no provider is involved). -/
theorem C5_counterexample :
    (Server.create_payment false (.error "unused") (some (-1)) 1000 1000 []).1.1 = 200 ∧
    (Server.create_payment false (.error "unused") (some (-1)) 1000 1000 []).2.map
      Server.Tx.amount = [-1] :=
  ⟨rfl, rfl⟩

/-- C5 amended: only a Python-falsy amount (missing, or equal to 0) is
rejected — with a 400 Missing-amount error and the history exactly
unchanged; any other integer, including a negative one, is accepted. -/
theorem C5_falsy_amount_rejected (payosOk : Bool) (provider : Except String Server.LinkRes)
    (amount : Option Int) (t now : Nat) (h : List Server.Tx)
    (hfalsy : amount = none ∨ amount = some 0) :
    Server.create_payment payosOk provider amount t now h =
      ((400, .err "Missing amount"), h) := by
  rcases hfalsy with h1 | h1 <;> simp [Server.create_payment, h1]

/-- C5 amended, witness: amount 0 is rejected and creates nothing. -/
theorem C5_falsy_amount_rejected_witness :
    ((some (0 : Int)) = none ∨ (some (0 : Int)) = some 0) ∧
    Server.create_payment false (.error "unused") (some 0) 1000 1000 [] =
      ((400, .err "Missing amount"), []) :=
  ⟨Or.inr rfl,
    C5_falsy_amount_rejected false (.error "unused") (some 0) 1000 1000 [] (Or.inr rfl)⟩

/-! ### C6: webhook payload validation -/

/-- A fresh PENDING transaction in `server_tri.py` shape. -/
def triPending : ServerTri.Tx :=
  { paymentLinkId := some "L1", orderCode := 1, amount := 5000,
    statusCode := some "PENDING", status := some "Đang thanh toán",
    createdAt := 0, updatedAt := none }

/-- C6 counterexample: `server_tri.py`'s webhook does not validate the
payload — a delivery for a known paymentLinkId with the status field missing
responds 200 (not 400) and changes the history, nulling the matched record's
statusCode. -/
theorem C6_counterexample :
    (ServerTri.payment_webhook [triPending] (some "L1") none 10).1 = 200 ∧
    (ServerTri.payment_webhook [triPending] (some "L1") none 10).2 ≠ [triPending] ∧
    (ServerTri.payment_webhook [triPending] (some "L1") none 10).2.map
      ServerTri.Tx.statusCode = [none] :=
  ⟨rfl, by decide, rfl⟩

/-- C6 amended: `server.py`'s webhook handler does validate — whenever the
paymentLinkId or the status of the payload is missing or empty, it answers
400 and persists the history exactly unchanged; `server_tri.py`'s handler
performs no such validation. -/
theorem C6_webhook_validation (h : List Server.Tx) (linkId? status? : Option String)
    (now : Nat) (hbad : truthy linkId? = false ∨ truthy status? = false) :
    Server.payment_webhook h linkId? status? now = (400, h) := by
  rcases hbad with h1 | h1 <;> simp [Server.payment_webhook, h1]

/-- C6 amended, witness: a payload with no status is rejected by `server.py`
with 400 and no state change. -/
theorem C6_webhook_validation_witness :
    (truthy (some "L1") = false ∨ truthy (none : Option String) = false) ∧
    Server.payment_webhook [txPending] (some "L1") none 10 = (400, [txPending]) :=
  ⟨Or.inr rfl, C6_webhook_validation [txPending] (some "L1") none 10 (Or.inr rfl)⟩

/-! ### C7: webhook redelivery idempotence -/

/-- Forget the `updatedAt` field of a record (the one field a redelivery
always rewrites). -/
def eraseUpdatedAt (tx : Server.Tx) : Server.Tx := { tx with updatedAt := none }

/-- C7 counterexample: redelivering the same SUCCESS webhook at a later time
does not leave the record unchanged — the second delivery rewrites
`updatedAt` (here from 100 to 200), so it is not a no-op on the record. -/
theorem C7_counterexample :
    (Server.payment_webhook
        (Server.payment_webhook [txPending] (some "L1") (some "SUCCESS") 100).2
        (some "L1") (some "SUCCESS") 200).2
      ≠ (Server.payment_webhook [txPending] (some "L1") (some "SUCCESS") 100).2 := by
  decide

/-- C7 amended: redelivering the same webhook status for the same
paymentLinkId is idempotent on everything except `updatedAt`: the second
delivery rewrites only `updatedAt` to its own delivery time (statusCode and
label are rewritten to the same values), and when the two deliveries carry
the same timestamp the second is an exact no-op; since the two deliveries
are identical, the final state is the same whichever is processed first. -/
theorem C7_redelivery_idempotent (h : List Server.Tx) (link s : String) (t1 t2 : Nat)
    (hlink : link ≠ "") (hs : s ≠ "") :
    ((Server.payment_webhook
        (Server.payment_webhook h (some link) (some s) t1).2
        (some link) (some s) t2).2.map eraseUpdatedAt
      = (Server.payment_webhook h (some link) (some s) t1).2.map eraseUpdatedAt) ∧
    (t2 = t1 →
      (Server.payment_webhook
        (Server.payment_webhook h (some link) (some s) t1).2
        (some link) (some s) t2).2
      = (Server.payment_webhook h (some link) (some s) t1).2) := by
  have hl : truthy (some link) = true := by simp [truthy, hlink]
  have hst : truthy (some s) = true := by simp [truthy, hs]
  have e1 : ∀ u : Nat, (Server.payment_webhook h (some link) (some s) u).2 =
      updateFirst (Server.webhookMatch link)
        (fun tx => { tx with statusCode := s,
                             status := (Server.STATUS_LABELS s).getD s,
                             updatedAt := some u }) h := by
    intro u
    simp [Server.payment_webhook, hl, hst]
  have e2 : ∀ u v : Nat, (Server.payment_webhook
      (updateFirst (Server.webhookMatch link)
        (fun tx => { tx with statusCode := s,
                             status := (Server.STATUS_LABELS s).getD s,
                             updatedAt := some u }) h) (some link) (some s) v).2 =
      updateFirst (Server.webhookMatch link)
        (fun tx => { tx with statusCode := s,
                             status := (Server.STATUS_LABELS s).getD s,
                             updatedAt := some v })
        (updateFirst (Server.webhookMatch link)
          (fun tx => { tx with statusCode := s,
                               status := (Server.STATUS_LABELS s).getD s,
                               updatedAt := some u }) h) := by
    intro u v
    simp [Server.payment_webhook, hl, hst]
  constructor
  · rw [e1, e2,
      updateFirst_updateFirst (Server.webhookMatch link)
        (fun tx => { tx with statusCode := s,
                             status := (Server.STATUS_LABELS s).getD s,
                             updatedAt := some t2 })
        (fun tx => { tx with statusCode := s,
                             status := (Server.STATUS_LABELS s).getD s,
                             updatedAt := some t1 })
        (fun x => rfl) h]
    exact map_updateFirst_congr eraseUpdatedAt (Server.webhookMatch link)
      (fun tx => { tx with statusCode := s,
                           status := (Server.STATUS_LABELS s).getD s,
                           updatedAt := some t2 })
      (fun tx => { tx with statusCode := s,
                           status := (Server.STATUS_LABELS s).getD s,
                           updatedAt := some t1 })
      (fun x => rfl) h
  · intro ht
    subst ht
    rw [e1, e2,
      updateFirst_updateFirst (Server.webhookMatch link)
        (fun tx => { tx with statusCode := s,
                             status := (Server.STATUS_LABELS s).getD s,
                             updatedAt := some t2 })
        (fun tx => { tx with statusCode := s,
                             status := (Server.STATUS_LABELS s).getD s,
                             updatedAt := some t2 })
        (fun x => rfl) h]

/-- C7 amended, witness at concrete inputs. -/
theorem C7_redelivery_idempotent_witness :
    ("L1" ≠ "" ∧ "SUCCESS" ≠ "") ∧
    ((Server.payment_webhook
        (Server.payment_webhook [txPending] (some "L1") (some "SUCCESS") 100).2
        (some "L1") (some "SUCCESS") 200).2.map eraseUpdatedAt
      = (Server.payment_webhook [txPending] (some "L1") (some "SUCCESS") 100).2.map
          eraseUpdatedAt) ∧
    (200 = 100 →
      (Server.payment_webhook
        (Server.payment_webhook [txPending] (some "L1") (some "SUCCESS") 100).2
        (some "L1") (some "SUCCESS") 200).2
      = (Server.payment_webhook [txPending] (some "L1") (some "SUCCESS") 100).2) :=
  ⟨⟨by decide, by decide⟩,
    C7_redelivery_idempotent [txPending] "L1" "SUCCESS" 100 200 (by decide) (by decide)⟩

/-! ### C8: orderCode uniqueness -/

/-- C8 counterexample: two create calls in the same clock second (epoch
second 1000, stub mode) persist two records with the identical orderCode
ORDER-1000 — no collision check or regeneration happens. -/
theorem C8_counterexample :
    ((Server.create_payment false (.error "unused") (some 5000) 1000 1000
        (Server.create_payment false (.error "unused") (some 5000) 1000 1000 []).2).2.map
      Server.Tx.orderCode) = ["ORDER-1000", "ORDER-1000"] := by
  decide

/-- C8 amended: the orderCode is derived solely from the current epoch
second, with no collision check against the store and no regeneration: two
creates sharing the same second append two records carrying the same
orderCode, so per-orderCode uniqueness fails within a clock second. -/
theorem C8_same_second_collision (h : List Server.Tx) (a : Int) (t now1 now2 : Nat)
    (ha : a ≠ 0) :
    ∃ tx1 tx2 : Server.Tx,
      (Server.create_payment false (.error "unused") (some a) t now2
        (Server.create_payment false (.error "unused") (some a) t now1 h).2).2
        = h ++ [tx1, tx2] ∧ tx1.orderCode = tx2.orderCode := by
  refine ⟨⟨some ("LINK-" ++ Server.mkOrderCode t), Server.mkOrderCode t, a,
            "PENDING", "Chờ thanh toán", now1, none⟩,
          ⟨some ("LINK-" ++ Server.mkOrderCode t), Server.mkOrderCode t, a,
            "PENDING", "Chờ thanh toán", now2, none⟩, ?_, rfl⟩
  simp [Server.create_payment, ha]

/-- C8 amended, witness: the collision realized at epoch second 1000. -/
theorem C8_same_second_collision_witness :
    (5000 : Int) ≠ 0 ∧
    ∃ tx1 tx2 : Server.Tx,
      (Server.create_payment false (.error "unused") (some 5000) 1000 7
        (Server.create_payment false (.error "unused") (some 5000) 1000 3 []).2).2
        = [] ++ [tx1, tx2] ∧ tx1.orderCode = tx2.orderCode :=
  ⟨by decide, C8_same_second_collision [] 5000 1000 3 7 (by decide)⟩

/-! ### C9: race convergence of webhook SUCCESS vs redirect CANCELED -/

/-- C9 counterexample: reconciling the webhook SUCCESS and then the cancel
redirect against the same PENDING transaction persists two terminal
transitions in sequence — the history first records SUCCESS and the later
cancel redirect overwrites it to CANCELED, so it is not the case that
exactly one of the two terminal states is applied. -/
theorem C9_counterexample :
    (Server.payment_webhook [txPending] (some "L1") (some "SUCCESS") 10).2.map
      Server.Tx.statusCode = ["SUCCESS"] ∧
    (Server.payment_cancel
        (Server.payment_webhook [txPending] (some "L1") (some "SUCCESS") 10).2
        (some "ORDER-1") 20).map Server.Tx.statusCode = ["CANCELED"] :=
  ⟨rfl, rfl⟩

/-- C9 amended: with the whole-file store there is no compare-and-update —
each handler applies its transition unconditionally, so serialized
executions of the webhook SUCCESS and the cancel redirect against the same
PENDING transaction both apply (two terminal transitions), and the final
persisted record always carries exactly the last writer's single coherent
status (CANCELED if the cancel ran last, SUCCESS if the webhook ran last),
never a mixed state. -/
theorem C9_last_writer_wins (tx : Server.Tx) (link : String) (t1 t2 : Nat)
    (hlink : link ≠ "") (hmatch : tx.paymentLinkId = some link)
    (_hpend : tx.statusCode = "PENDING") :
    ((Server.payment_webhook [tx] (some link) (some "SUCCESS") t1).2.map
        Server.Tx.statusCode = ["SUCCESS"]) ∧
    ((Server.payment_cancel
        (Server.payment_webhook [tx] (some link) (some "SUCCESS") t1).2
        (some tx.orderCode) t2).map Server.Tx.statusCode = ["CANCELED"]) ∧
    ((Server.payment_webhook (Server.payment_cancel [tx] (some tx.orderCode) t2)
        (some link) (some "SUCCESS") t1).2.map Server.Tx.statusCode = ["SUCCESS"]) := by
  have hl : truthy (some link) = true := by simp [truthy, hlink]
  refine ⟨?_, ?_, ?_⟩ <;>
    simp [Server.payment_webhook, Server.payment_cancel, updateFirst,
      Server.webhookMatch, Server.redirectMatch, truthy, hl, hlink, hmatch]

/-- C9 amended, witness at a concrete PENDING record. -/
theorem C9_last_writer_wins_witness :
    ("L1" ≠ "" ∧ txPending.paymentLinkId = some "L1" ∧
      txPending.statusCode = "PENDING") ∧
    ((Server.payment_webhook [txPending] (some "L1") (some "SUCCESS") 10).2.map
        Server.Tx.statusCode = ["SUCCESS"]) ∧
    ((Server.payment_cancel
        (Server.payment_webhook [txPending] (some "L1") (some "SUCCESS") 10).2
        (some txPending.orderCode) 20).map Server.Tx.statusCode = ["CANCELED"]) ∧
    ((Server.payment_webhook (Server.payment_cancel [txPending] (some txPending.orderCode) 20)
        (some "L1") (some "SUCCESS") 10).2.map Server.Tx.statusCode = ["SUCCESS"]) :=
  ⟨⟨by decide, rfl, rfl⟩,
    C9_last_writer_wins txPending "L1" 10 20 (by decide) rfl rfl⟩

/-! ### C10: stub-mode creation when PayOS is uninitialized -/

/-- C10: with the PayOS client uninitialized and a truthy amount, the create
handler of `server.py` answers 200 with the fabricated checkout URL
https-example-com-checkout-(orderCode) and paymentLinkId LINK-(orderCode),
and appends exactly one PENDING record; the provider parameter does not
appear in the result, so no provider call is involved. -/
theorem C10_stub_mode (h : List Server.Tx) (provider : Except String Server.LinkRes)
    (a : Int) (t now : Nat) (ha : a ≠ 0) :
    Server.create_payment false provider (some a) t now h =
      ((200, .ok (some ("https://example.com/checkout/" ++ Server.mkOrderCode t))
                 (Server.mkOrderCode t)
                 (some ("LINK-" ++ Server.mkOrderCode t))),
       h ++ [{ paymentLinkId := some ("LINK-" ++ Server.mkOrderCode t),
               orderCode := Server.mkOrderCode t, amount := a,
               statusCode := "PENDING", status := "Chờ thanh toán",
               createdAt := now, updatedAt := none }]) := by
  simp [Server.create_payment, ha]

/-- C10 witness: the stub response at epoch second 1 on an empty history. -/
theorem C10_stub_mode_witness :
    (5000 : Int) ≠ 0 ∧
    Server.create_payment false (.error "unused") (some 5000) 1 2 [] =
      ((200, .ok (some ("https://example.com/checkout/" ++ Server.mkOrderCode 1))
                 (Server.mkOrderCode 1)
                 (some ("LINK-" ++ Server.mkOrderCode 1))),
       [] ++ [{ paymentLinkId := some ("LINK-" ++ Server.mkOrderCode 1),
                orderCode := Server.mkOrderCode 1, amount := 5000,
                statusCode := "PENDING", status := "Chờ thanh toán",
                createdAt := 2, updatedAt := none }]) :=
  ⟨by decide, C10_stub_mode [] (.error "unused") 5000 1 2 (by decide)⟩
